import Mathlib

/-!
# Verification of the dice-frontend round-lifecycle reconciliation engine

Shallow embedding of the round-lifecycle engine of the dice frontend
(`src/unnamed/part_000`, with constants from `src/src/config.ts`).

The engine's module-level mutable variables (`gameState`, `scheduledStartAt`,
`scheduledEndAt`, `countdownHandle`, `countdownTotalMs`, `cancelledUntil`,
`waitingStateTimeout`, `isFetchingSnapshot`, and the `GameConfig` fields
`targetValues`, `currentRoundId`, `serverTimeOffset`) are collected into one
`EngineState` record.  Every handler and helper becomes a pure state
transformer taking the current local wall-clock time (`Date.now()`) as an
explicit parameter; `getServerTime()` is `localNow + serverTimeOffset` as in
the source.  Timestamps are integers (epoch milliseconds); JavaScript
truthiness of optional numbers (`!x`, `x && ...`) is modelled explicitly on
`Option Int` (`none` and `some 0` are falsy), and nullish coalescing `??` is
`Option.getD`.  DOM/WebGL rendering effects (overlay classes, stroke colors,
dashoffsets) are out of scope per the spec; the displayed status message
(`statusText`), the rendered result symbols and the dice target values are
kept, since the claims refer to them.
-/

namespace DiceFrontend

/-- The five display states of `gameState` in the source:
`'idle' | 'waiting' | 'countdown' | 'rolling' | 'result'`. -/
inductive GState where
  | idle
  | waiting
  | countdown
  | rolling
  | result
deriving DecidableEq, Repr

/-- A queued countdown frame: `queueCountdownFrame(targetTime, label, totalDuration)`
stores the arguments with which `animateCountdownToTime` will be re-invoked.
(The `raf` / `timeout` mode distinction only changes the tick cadence, not the
re-invocation arguments, and is not modelled.) -/
structure CountdownFrame where
  targetTime : Int
  label : String
  totalDuration : Int
deriving DecidableEq, Repr

/-- The engine's mutable module state (plus the mutable `GameConfig` fields). -/
structure EngineState where
  gameState : GState
  scheduledStartAt : Option Int
  scheduledEndAt : Option Int
  countdownHandle : Option CountdownFrame
  countdownTotalMs : Option Int
  cancelledUntil : Option Int
  /-- whether `waitingStateTimeout` holds a live timeout handle -/
  waitingTimeout : Bool
  isFetchingSnapshot : Bool
  statusText : String
  /-- `GameConfig.targetValues` -/
  targetValues : List Int
  /-- `GameConfig.currentRoundId` -/
  currentRoundId : Option String
  /-- `GameConfig.serverTimeOffset` -/
  serverTimeOffset : Int
  /-- per-die `userData.targetValue` of the six dice meshes -/
  diceTargets : List Int
  /-- dice values rendered by `buildResultSymbols` into `resultSymbols` -/
  renderedSymbols : List Int
deriving DecidableEq, Repr

/-- JavaScript truthiness of an optional number: `null`/`undefined` and `0`
are falsy. -/
def truthy : Option Int → Bool
  | none => false
  | some v => v != 0

/-- The guard `x && t < x` used on `cancelledUntil`
(`cancelledUntil && getServerTime() < cancelledUntil`). -/
def cancelWindowActive (o : Option Int) (t : Int) : Bool :=
  match o with
  | none => false
  | some v => v != 0 && t < v

/-- The guard `scheduledEndAt && getServerTime() < scheduledEndAt`
(`isWaitingForActiveRound` in `showWaitingState`). -/
def activeRoundEnd (o : Option Int) (t : Int) : Bool :=
  match o with
  | none => false
  | some v => v != 0 && t < v

/-- `getServerTime(): Date.now() + GameConfig.serverTimeOffset`. -/
def getServerTime (st : EngineState) (localNow : Int) : Int :=
  localNow + st.serverTimeOffset

/-- `updateServerTimeOffset(serverNow): GameConfig.serverTimeOffset = serverNow - Date.now()`. -/
def updateServerTimeOffset (serverNow localNow : Int) (st : EngineState) : EngineState :=
  { st with serverTimeOffset := serverNow - localNow }

/-- `clearCountdownFrame()`: revoke the pending raf/timeout handle. -/
def clearCountdownFrame (st : EngineState) : EngineState :=
  { st with countdownHandle := none }

/-- `cancelCountdown()`: clear the frame handle, the waiting-state timeout and
`countdownTotalMs` (but keep `scheduledStartAt`/`scheduledEndAt`). -/
def cancelCountdown (st : EngineState) : EngineState :=
  { st with countdownHandle := none, waitingTimeout := false, countdownTotalMs := none }

/-- Per-die defaulting `values[index] || 1` applied to the six dice
(`dice.forEach` in `updateDiceToValues` / `startRolling`). -/
def diceTargetsOf (values : List Int) : List Int :=
  (List.range 6).map (fun i =>
    match values[i]? with
    | some v => if v != 0 then v else 1
    | none => 1)

/-- `buildResultSymbols(diceValues)`: for `i = 0..5`, render a symbol exactly
when `diceValues[i] >= 1 && diceValues[i] <= 6`; all other entries are
silently skipped. -/
def buildResultSymbols (diceValues : List Int) : List Int :=
  (List.range 6).filterMap (fun i =>
    match diceValues[i]? with
    | some v => if 1 ≤ v ∧ v ≤ 6 then some v else none
    | none => none)

/-- `updateDiceToValues(values)`: set each die's target via `values[index] || 1`
and record `GameConfig.targetValues = values`. -/
def updateDiceToValues (values : List Int) (st : EngineState) : EngineState :=
  { st with diceTargets := diceTargetsOf values, targetValues := values }

/-- `showWaitingState(message)`: clear the waiting timeout, enter `waiting`,
reset the countdown display, and (only when not inside an active round window)
install the 2s timeout that later falls back to the stored last outcome. -/
def showWaitingState (message : String) (localNow : Int) (st : EngineState) : EngineState :=
  let st := { st with waitingTimeout := false,
                      gameState := GState.waiting,
                      countdownTotalMs := none,
                      statusText := message }
  if activeRoundEnd st.scheduledEndAt (getServerTime st localNow) then st
  else { st with waitingTimeout := true }

/-- `showLastOutcome(diceValues)`: enter `result` showing the stored outcome. -/
def showLastOutcome (diceValues : List Int) (st : EngineState) : EngineState :=
  { st with gameState := GState.result, renderedSymbols := buildResultSymbols diceValues }

/-- `showResult(diceValues)`: enter `result` showing the round result. -/
def showResult (diceValues : List Int) (st : EngineState) : EngineState :=
  { st with gameState := GState.result, renderedSymbols := buildResultSymbols diceValues }

/-- `startRolling(diceValues)`: cancel countdown and waiting timeout, enter
`rolling`, and set each die's animation target via `diceValues[index] || 1`.
(The roll animation itself and the settle-delay `setTimeout` to `showResult`
are rendering-side and not modelled.) -/
def startRolling (diceValues : List Int) (st : EngineState) : EngineState :=
  let st := cancelCountdown st
  let st := { st with waitingTimeout := false }
  { st with gameState := GState.rolling, diceTargets := diceTargetsOf diceValues }

/-- `remaining = Math.max(0, targetTime - getServerTime())` in
`animateCountdownToTime`. -/
def remainingAt (targetTime now : Int) : Int :=
  max 0 (targetTime - now)

/-- `duration = Math.max(1, Math.max(baseDuration, remaining))` with
`baseDuration = totalDuration ?? targetTime - now`: the stable progress
denominator, never below `remaining` and never below 1. -/
def durationOf (totalDuration : Option Int) (targetTime now : Int) : Int :=
  max 1 (max (totalDuration.getD (targetTime - now)) (remainingAt targetTime now))

/-- `progress = 1 - remaining / duration` computed on each tick. -/
def progressOf (totalDuration : Option Int) (targetTime now : Int) : ℚ :=
  1 - (remainingAt targetTime now : ℚ) / (durationOf totalDuration targetTime now : ℚ)

/-- `secondsLeft = Math.ceil(remaining / 1000)` for nonnegative `remaining`. -/
def secondsLeftOf (remaining : Int) : Int :=
  (remaining + 999) / 1000

/-- One synchronous execution of `animateCountdownToTime(targetTime, label,
totalDuration)`: update the status text, then either queue the next frame
(`remaining > 0`) or expire: clear the frame and, if still in `countdown`,
fall to `Waiting("Waiting for result...")`. -/
def animateCountdownToTime (targetTime : Int) (label : String) (totalDuration : Option Int)
    (localNow : Int) (st : EngineState) : EngineState :=
  let now := getServerTime st localNow
  let remaining := remainingAt targetTime now
  let duration := durationOf totalDuration targetTime now
  let secondsLeft := secondsLeftOf remaining
  let st := { st with statusText :=
                if secondsLeft ≤ 3 ∧ secondsLeft > 0 then "Get ready..." else label }
  if remaining > 0 then
    { (clearCountdownFrame st) with
        countdownHandle := some ⟨targetTime, label, duration⟩ }
  else
    let st := clearCountdownFrame st
    if st.gameState = GState.countdown then
      showWaitingState "Waiting for result..." localNow st
    else st

/-- The queued frame firing: re-invoke `animateCountdownToTime` with the
stored arguments at a later local time. -/
def fireCountdownFrame (localNow : Int) (st : EngineState) : EngineState :=
  match st.countdownHandle with
  | some f => animateCountdownToTime f.targetTime f.label (some f.totalDuration) localNow st
  | none => st

/-- `startScheduledCountdown(totalMs?, remainingMs?)`: guard on a truthy
`scheduledStartAt`; suppress (forcing `Waiting("Waiting for next round...")`)
while inside the cancellation window; otherwise install the countdown toward
`startAt` and start ticking. -/
def startScheduledCountdown (totalMs remainingMs : Option Int) (localNow : Int)
    (st : EngineState) : EngineState :=
  if ¬ truthy st.scheduledStartAt then st
  else if cancelWindowActive st.cancelledUntil (getServerTime st localNow) then
    showWaitingState "Waiting for next round..." localNow st
  else
    let remaining := remainingMs.getD
      (max 0 (st.scheduledStartAt.getD 0 - getServerTime st localNow))
    let total := max 1 (totalMs.getD (st.countdownTotalMs.getD remaining))
    let st := { st with countdownTotalMs := some total }
    let targetTime := getServerTime st localNow + remaining
    let st := { st with gameState := GState.countdown,
                        statusText := "Round starting soon..." }
    animateCountdownToTime targetTime "Round starting in" (some total) localNow st

/-- `startRoundCountdown(totalMs?, remainingMs?)`: guard on a truthy
`scheduledEndAt`; suppress while inside the cancellation window; otherwise
clear any existing frame and install the countdown toward `endAt`. -/
def startRoundCountdown (totalMs remainingMs : Option Int) (localNow : Int)
    (st : EngineState) : EngineState :=
  if ¬ truthy st.scheduledEndAt then st
  else if cancelWindowActive st.cancelledUntil (getServerTime st localNow) then
    showWaitingState "Waiting for next round..." localNow st
  else
    let st := clearCountdownFrame st
    let remaining := remainingMs.getD
      (max 0 (st.scheduledEndAt.getD 0 - getServerTime st localNow))
    let total := max 1 (totalMs.getD (st.countdownTotalMs.getD remaining))
    let st := { st with countdownTotalMs := some total }
    let targetTime := getServerTime st localNow + remaining
    let st := { st with gameState := GState.countdown,
                        statusText := "Rolling soon..." }
    animateCountdownToTime targetTime "Result in" (some total) localNow st

/-! ## SSE event payloads and handlers (`connectSSE` listeners) -/

/-- `LastOutcomeEvent` payload. -/
structure LastOutcomeEvent where
  chatId : Int
  diceValues : List Int
  updatedAt : Int
  roundId : Option String
  serverNow : Int

/-- `RoundScheduledEvent` payload. -/
structure RoundScheduledEvent where
  chatId : Int
  startAt : Int
  endAt : Int
  totalMs : Option Int
  remainingMs : Option Int
  serverNow : Int

/-- `RoundStartedEvent` payload. -/
structure RoundStartedEvent where
  roundId : String
  chatId : Int
  startAt : Int
  endAt : Int
  totalMs : Option Int
  remainingMs : Option Int
  serverNow : Int

/-- `RoundResultEvent` payload. -/
structure RoundResultEvent where
  roundId : String
  chatId : Int
  diceValues : List Int
  serverNow : Int

/-- `RoundCancelledEvent` payload. -/
structure RoundCancelledEvent where
  chatId : Int
  serverNow : Int

/-- The `last.outcome` listener: sync time, unconditionally overwrite the
stored outcome (`targetValues`, `currentRoundId`) and the dice, and show it
only from `idle`, or from `waiting` with falsy `scheduledEndAt`. -/
def onLastOutcome (e : LastOutcomeEvent) (localNow : Int) (st : EngineState) : EngineState :=
  let st := updateServerTimeOffset e.serverNow localNow st
  let st := { st with targetValues := e.diceValues, currentRoundId := e.roundId }
  let st := updateDiceToValues e.diceValues st
  if st.gameState = GState.idle ∨ (st.gameState = GState.waiting ∧ ¬ truthy st.scheduledEndAt) then
    showLastOutcome e.diceValues st
  else st

/-- The `round.scheduled` listener: sync time, clear `cancelledUntil`, install
the schedule window wholesale, and start the countdown toward `startAt`. -/
def onRoundScheduled (e : RoundScheduledEvent) (localNow : Int) (st : EngineState) : EngineState :=
  let st := updateServerTimeOffset e.serverNow localNow st
  let st := { st with cancelledUntil := none,
                      scheduledStartAt := some e.startAt,
                      scheduledEndAt := some e.endAt }
  startScheduledCountdown e.totalMs e.remainingMs localNow st

/-- The `round.started` listener: sync time, clear `cancelledUntil`, install
the round window and id, cancel any previous countdown, and start the
countdown toward `endAt`. -/
def onRoundStarted (e : RoundStartedEvent) (localNow : Int) (st : EngineState) : EngineState :=
  let st := updateServerTimeOffset e.serverNow localNow st
  let st := { st with cancelledUntil := none,
                      currentRoundId := some e.roundId,
                      scheduledStartAt := some e.startAt,
                      scheduledEndAt := some e.endAt }
  let st := cancelCountdown st
  startRoundCountdown e.totalMs e.remainingMs localNow st

/-- The `round.result` listener: sync time, store the result, cancel any
countdown and roll the dice toward it. -/
def onRoundResult (e : RoundResultEvent) (localNow : Int) (st : EngineState) : EngineState :=
  let st := updateServerTimeOffset e.serverNow localNow st
  let st := { st with targetValues := e.diceValues, currentRoundId := some e.roundId }
  let st := cancelCountdown st
  startRolling e.diceValues st

/-- The `round.cancelled` listener: sync time, set
`cancelledUntil = scheduledEndAt ?? scheduledStartAt ?? now + 30000`
(nullish coalescing, no `max`), cancel timers and show
`Waiting("Waiting for next round...")`. -/
def onRoundCancelled (e : RoundCancelledEvent) (localNow : Int) (st : EngineState) : EngineState :=
  let st := updateServerTimeOffset e.serverNow localNow st
  let now := getServerTime st localNow
  let horizon := st.scheduledEndAt.getD (st.scheduledStartAt.getD (now + 30000))
  let st := { st with cancelledUntil := some horizon }
  let st := cancelCountdown st
  showWaitingState "Waiting for next round..." localNow st

/-! ## Snapshot reconciliation (`fetchSnapshotAndSync`) -/

/-- The `lastOutcome` sub-object of every snapshot shape. -/
structure LastOutcome where
  diceValues : List Int
  updatedAt : Int
  roundId : Option String

/-- The tagged `SnapshotResponse` union returned by `GET /rounds/current`. -/
inductive SnapshotResponse where
  | scheduled (chatId : Int) (startAt endAt : Int) (lastOutcome : LastOutcome)
      (serverNow : Int) (totalMs remainingMs : Option Int)
  | startedOrRevealed (chatId : Int) (roundId : String) (startAt endAt : Int)
      (diceValues : Option (List Int)) (totalMs remainingMs : Option Int)
      (lastOutcome : LastOutcome) (serverNow : Int)
  | idle (chatId : Int) (lastOutcome : LastOutcome) (serverNow : Int)

/-- The common prologue of `fetchSnapshotAndSync` after a successful fetch:
sync time, then always update last outcome and dice. -/
def syncCommon (lastOutcome : LastOutcome) (serverNow localNow : Int)
    (st : EngineState) : EngineState :=
  let st := updateServerTimeOffset serverNow localNow st
  let st := { st with targetValues := lastOutcome.diceValues,
                      currentRoundId := lastOutcome.roundId }
  updateDiceToValues lastOutcome.diceValues st

/-- The `data.state === 'SCHEDULED'` branch of `fetchSnapshotAndSync`. -/
def syncScheduled (startAt endAt : Int) (totalMs remainingMs : Option Int)
    (now localNow : Int) (st : EngineState) : EngineState :=
  if cancelWindowActive st.cancelledUntil now then
    showWaitingState "Waiting for next round..." localNow (cancelCountdown st)
  else
    let st := { st with scheduledStartAt := some startAt, scheduledEndAt := some endAt }
    let rem := remainingMs.getD (max 0 (startAt - now))
    if now ≥ endAt then
      showLastOutcome st.targetValues st
    else if now ≥ startAt then
      startRoundCountdown (some (totalMs.getD (endAt - startAt)))
        (some (max 0 (endAt - now))) localNow st
    else
      startScheduledCountdown (some (totalMs.getD rem)) (some rem) localNow st

/-- The `data.state === 'STARTED_OR_REVEALED'` branch of
`fetchSnapshotAndSync`.  An empty `diceValues` array is a cancelled round;
`null` means no result yet. -/
def syncStartedOrRevealed (roundId : String) (startAt endAt : Int)
    (diceValues : Option (List Int)) (totalMs remainingMs : Option Int)
    (now localNow : Int) (st : EngineState) : EngineState :=
  if cancelWindowActive st.cancelledUntil now then
    showWaitingState "Round cancelled" localNow (cancelCountdown st)
  else
    let st := { st with scheduledStartAt := some startAt,
                        scheduledEndAt := some endAt,
                        currentRoundId := some roundId }
    match diceValues with
    | some vs =>
      if vs.length = 0 then
        showWaitingState "Waiting for next round..." localNow (cancelCountdown st)
      else
        let st := { st with targetValues := vs }
        let st := updateDiceToValues vs st
        if now ≥ endAt then showResult st.targetValues st
        else startRolling st.targetValues st
    | none =>
      if now < endAt then
        startRoundCountdown (some (totalMs.getD (endAt - startAt)))
          (some (remainingMs.getD (max 0 (endAt - now)))) localNow st
      else
        showWaitingState "Waiting for result..." localNow st

/-- The whole successful body of `fetchSnapshotAndSync`. -/
def applySnapshotBody (data : SnapshotResponse) (localNow : Int)
    (st : EngineState) : EngineState :=
  match data with
  | .scheduled _ startAt endAt lo serverNow totalMs remainingMs =>
    syncScheduled startAt endAt totalMs remainingMs serverNow localNow
      (syncCommon lo serverNow localNow st)
  | .startedOrRevealed _ rid startAt endAt dvs totalMs remainingMs lo serverNow =>
    syncStartedOrRevealed rid startAt endAt dvs totalMs remainingMs serverNow localNow
      (syncCommon lo serverNow localNow st)
  | .idle _ lo serverNow =>
    let st := syncCommon lo serverNow localNow st
    showLastOutcome st.targetValues st

/-- `fetchSnapshotAndSync()`: drop the call if a fetch is already in flight;
otherwise mark in flight, run the body on the fetch result (a failed fetch
mutates nothing), and clear the in-flight flag in `finally`. -/
def fetchSnapshotAndSync (result : Except Unit SnapshotResponse) (localNow : Int)
    (st : EngineState) : EngineState :=
  if st.isFetchingSnapshot then st
  else
    let st := { st with isFetchingSnapshot := true }
    let st := match result with
      | .error _ => st
      | .ok data => applySnapshotBody data localNow st
    { st with isFetchingSnapshot := false }

/-! ## Reconnection (`scheduleReconnect`, `reconnect`) -/

/-- `GameConfig.reconnectDelay` (ms). -/
def reconnectDelay : Nat := 2000

/-- `GameConfig.maxReconnectAttempts`. -/
def maxReconnectAttempts : Nat := 10

/-- Connection-side mutable state: `reconnectAttempts`, `isConnected`, the
status banner, a pending `setTimeout(connectSSE, delay)` handle, and whether
`connectSSE()` was just invoked synchronously. -/
structure ConnState where
  reconnectAttempts : Nat
  connected : Bool
  statusMsg : String
  pendingReconnectDelay : Option Nat
  opening : Bool
deriving DecidableEq, Repr

/-- `updateConnectionStatus(connected, message?)`. -/
def updateConnectionStatus (connected : Bool) (message : Option String)
    (st : ConnState) : ConnState :=
  { st with connected := connected,
            statusMsg := message.getD (if connected then "Connected" else "Disconnected") }

/-- `connectSSE()` entry: shows `Connecting...` and opens a new EventSource.
(Listener registration and the async open/err callbacks are outside the
synchronous step.) -/
def connectSSE (st : ConnState) : ConnState :=
  { (updateConnectionStatus false (some "Connecting...") st) with opening := true }

/-- `scheduleReconnect()`: at or above the attempt ceiling, report the
terminal `Connection failed` status and schedule nothing; otherwise increment
the counter and schedule `connectSSE` after
`reconnectDelay * Math.min(reconnectAttempts, 5)` ms. -/
def scheduleReconnect (st : ConnState) : ConnState :=
  if st.reconnectAttempts ≥ maxReconnectAttempts then
    updateConnectionStatus false (some "Connection failed") st
  else
    let st := { st with reconnectAttempts := st.reconnectAttempts + 1 }
    let delay := reconnectDelay * min st.reconnectAttempts 5
    let st := updateConnectionStatus false
      (some ("Reconnecting in " ++ toString ((delay + 999) / 1000) ++ "s...")) st
    { st with pendingReconnectDelay := some delay }

/-- The manual `reconnect()` command: close the stream, reset the attempt
counter to 0, and reopen immediately (synchronous `connectSSE()`). -/
def reconnect (st : ConnState) : ConnState :=
  connectSSE { st with reconnectAttempts := 0 }

/-- The initial module state: `gameState = 'idle'`, no windows, timers or
cancellation horizon, `GameConfig.targetValues = [1,2,3,4,5,6]`,
`serverTimeOffset = 0`, each die created with target `targetValues[i] || 1`. -/
def initState : EngineState :=
  { gameState := GState.idle
    scheduledStartAt := none
    scheduledEndAt := none
    countdownHandle := none
    countdownTotalMs := none
    cancelledUntil := none
    waitingTimeout := false
    isFetchingSnapshot := false
    statusText := ""
    targetValues := [1, 2, 3, 4, 5, 6]
    currentRoundId := none
    serverTimeOffset := 0
    diceTargets := [1, 2, 3, 4, 5, 6]
    renderedSymbols := [] }

/-- Number of live countdown frame handles: the engine stores the raf/timeout
handle in the single `countdownHandle` slot. -/
def countdownHandleCount (st : EngineState) : Nat :=
  if st.countdownHandle.isSome then 1 else 0

/-! ## Helper lemmas -/

theorem int_add_sub_cancel_mid (a b : Int) : a + (b - a) = b := by omega

theorem int_add_sub_cancel_fst (a b : Int) : a + b - a = b := by omega

theorem int_max_zero_idem (a : Int) : max 0 (max 0 a) = max 0 a := by omega

theorem truthy_some (v : Int) : truthy (some v) = (v != 0) := rfl

theorem showWaitingState_gameState (m : String) (ln : Int) (st : EngineState) :
    (showWaitingState m ln st).gameState = GState.waiting := by
  simp only [showWaitingState]
  split <;> rfl

theorem showWaitingState_statusText (m : String) (ln : Int) (st : EngineState) :
    (showWaitingState m ln st).statusText = m := by
  simp only [showWaitingState]
  split <;> rfl

theorem showWaitingState_cancelledUntil (m : String) (ln : Int) (st : EngineState) :
    (showWaitingState m ln st).cancelledUntil = st.cancelledUntil := by
  simp only [showWaitingState]
  split <;> rfl

theorem showWaitingState_countdownHandle (m : String) (ln : Int) (st : EngineState) :
    (showWaitingState m ln st).countdownHandle = st.countdownHandle := by
  simp only [showWaitingState]
  split <;> rfl

theorem animateCountdownToTime_cancelledUntil (t : Int) (l : String) (d : Option Int)
    (ln : Int) (st : EngineState) :
    (animateCountdownToTime t l d ln st).cancelledUntil = st.cancelledUntil := by
  simp only [animateCountdownToTime, clearCountdownFrame]
  repeat' split
  all_goals simp [showWaitingState_cancelledUntil]

theorem startScheduledCountdown_cancelledUntil (tm rm : Option Int) (ln : Int)
    (st : EngineState) :
    (startScheduledCountdown tm rm ln st).cancelledUntil = st.cancelledUntil := by
  simp only [startScheduledCountdown]
  repeat' split
  all_goals simp [showWaitingState_cancelledUntil, animateCountdownToTime_cancelledUntil]

theorem startRoundCountdown_cancelledUntil (tm rm : Option Int) (ln : Int)
    (st : EngineState) :
    (startRoundCountdown tm rm ln st).cancelledUntil = st.cancelledUntil := by
  simp only [startRoundCountdown, clearCountdownFrame]
  repeat' split
  all_goals simp [showWaitingState_cancelledUntil, animateCountdownToTime_cancelledUntil]

theorem syncCommon_cancelledUntil (lo : LastOutcome) (sn ln : Int) (s : EngineState) :
    (syncCommon lo sn ln s).cancelledUntil = s.cancelledUntil := by
  simp [syncCommon, updateServerTimeOffset, updateDiceToValues]

theorem onRoundCancelled_gameState (e : RoundCancelledEvent) (ln : Int) (st : EngineState) :
    (onRoundCancelled e ln st).gameState = GState.waiting := by
  simp only [onRoundCancelled, updateServerTimeOffset, cancelCountdown]
  rw [showWaitingState_gameState]

theorem onRoundCancelled_statusText (e : RoundCancelledEvent) (ln : Int) (st : EngineState) :
    (onRoundCancelled e ln st).statusText = "Waiting for next round..." := by
  simp only [onRoundCancelled, updateServerTimeOffset, cancelCountdown]
  rw [showWaitingState_statusText]

/-! ## Claim theorems -/

/-- C3 counterexample: with `RoundWindow.endAt = 100` in the (distant) past
and `serverTime() = 1000000`, `round.cancelled` sets the horizon to `100`,
which is strictly earlier than `serverTime() + 30000`.  The code takes
`endAt ?? startAt ?? now + 30000` with no `max`, so the claimed lower bound
`horizon ≥ serverTime() + fallback` fails. -/
theorem cancelled_horizon_below_fallback_cex :
    (onRoundCancelled ⟨1, 1000000⟩ 1000000
        { initState with scheduledStartAt := some 50,
                         scheduledEndAt := some 100 }).cancelledUntil = some 100
    ∧ (100 : Int) < 1000000 + 30000 := by
  constructor
  · rfl
  · decide

/-- C3 (amended): on every `round.cancelled`, the horizon is the
nullish-coalescing chain `scheduledEndAt ?? scheduledStartAt ?? serverNow +
30000` — the round window's `endAt` when present, else its `startAt`, else
`serverTime() + 30000`; there is no `max` with `serverTime() + fallback`.
The handler also cancels the countdown frame and enters
`Waiting("Waiting for next round...")`. -/
theorem cancelled_sets_coalesced_horizon (e : RoundCancelledEvent) (localNow : Int)
    (st : EngineState) :
    (onRoundCancelled e localNow st).cancelledUntil
      = some (st.scheduledEndAt.getD (st.scheduledStartAt.getD (e.serverNow + 30000)))
    ∧ (onRoundCancelled e localNow st).countdownHandle = none
    ∧ (onRoundCancelled e localNow st).gameState = GState.waiting
    ∧ (onRoundCancelled e localNow st).statusText = "Waiting for next round..." := by
  refine ⟨?_, ?_, ?_, ?_⟩
  · simp only [onRoundCancelled, updateServerTimeOffset, getServerTime, cancelCountdown]
    rw [showWaitingState_cancelledUntil]
    simp [int_add_sub_cancel_mid]
  · simp only [onRoundCancelled, updateServerTimeOffset, cancelCountdown]
    rw [showWaitingState_countdownHandle]
  · simp only [onRoundCancelled, updateServerTimeOffset, cancelCountdown]
    rw [showWaitingState_gameState]
  · simp only [onRoundCancelled, updateServerTimeOffset, cancelCountdown]
    rw [showWaitingState_statusText]

/-- C7: for a fixed countdown target, the tick's `remaining = max(0, target −
serverTime())` is antitone in the evaluation time; and on every tick the
progress fraction `1 − remaining/duration` lies in `[0, 1]`, because the
duration denominator `max(1, max(baseDuration, remaining))` is never smaller
than `remaining` nor smaller than `1`. -/
theorem countdown_monotonic_bounded (T t1 t2 : Int) (h : t1 ≤ t2)
    (td : Option Int) (target now : Int) :
    remainingAt T t2 ≤ remainingAt T t1
    ∧ remainingAt target now ≤ durationOf td target now
    ∧ 1 ≤ durationOf td target now
    ∧ 0 ≤ progressOf td target now
    ∧ progressOf td target now ≤ 1 := by
  have hrd : remainingAt target now ≤ durationOf td target now := by
    unfold durationOf
    exact le_trans (le_max_right _ _) (le_max_right _ _)
  have hd1 : (1 : Int) ≤ durationOf td target now := le_max_left _ _
  have hr0 : (0 : Int) ≤ remainingAt target now := le_max_left _ _
  have hdq : (0 : ℚ) < (durationOf td target now : ℚ) := by exact_mod_cast hd1.trans_lt' (by norm_num)
  refine ⟨?_, hrd, hd1, ?_, ?_⟩
  · exact max_le_max le_rfl (by omega)
  · unfold progressOf
    have : (remainingAt target now : ℚ) / (durationOf td target now : ℚ) ≤ 1 := by
      rw [div_le_one hdq]
      exact_mod_cast hrd
    linarith
  · unfold progressOf
    have : (0 : ℚ) ≤ (remainingAt target now : ℚ) / (durationOf td target now : ℚ) := by
      apply div_nonneg _ hdq.le
      exact_mod_cast hr0
    linarith

/-- C7 witness at `T = 10`, `t1 = 1`, `t2 = 2`, `td = none`, `target = 5`,
`now = 3`. -/
theorem countdown_monotonic_bounded_witness :
    remainingAt 10 2 ≤ remainingAt 10 1
    ∧ remainingAt 5 3 ≤ durationOf none 5 3
    ∧ 1 ≤ durationOf none 5 3
    ∧ 0 ≤ progressOf none 5 3
    ∧ progressOf none 5 3 ≤ 1 :=
  countdown_monotonic_bounded 10 1 2 (by norm_num) none 5 3

/-- C8: the snapshot path self-serializes on `isFetchingSnapshot`: a call
issued while a fetch is pending returns the state untouched, and a call that
runs (on success or on fetch failure) leaves the in-flight flag cleared by
the `finally` block. -/
theorem fetchSnapshot_single_flight (st : EngineState)
    (result : Except Unit SnapshotResponse) (localNow : Int) :
    (st.isFetchingSnapshot = true → fetchSnapshotAndSync result localNow st = st)
    ∧ (st.isFetchingSnapshot = false →
        (fetchSnapshotAndSync result localNow st).isFetchingSnapshot = false) := by
  constructor
  · intro h
    simp [fetchSnapshotAndSync, h]
  · intro h
    simp only [fetchSnapshotAndSync, h]
    split <;> simp_all

/-- C8 witness: a pending call is the identity on a concrete in-flight state,
and a completed failing fetch on the initial state clears the flag. -/
theorem fetchSnapshot_single_flight_witness :
    fetchSnapshotAndSync (Except.error ()) 0 { initState with isFetchingSnapshot := true }
      = { initState with isFetchingSnapshot := true }
    ∧ (fetchSnapshotAndSync (Except.error ()) 0 initState).isFetchingSnapshot = false :=
  ⟨(fetchSnapshot_single_flight _ (Except.error ()) 0).1 rfl,
   (fetchSnapshot_single_flight _ (Except.error ()) 0).2 rfl⟩

/-- C9: while below the attempt ceiling, `scheduleReconnect` increments the
counter and schedules a reconnect after `reconnectDelay × min(attempts, 5)`
(with `attempts` the incremented counter, as in the source); at or above the
ceiling it schedules nothing and reports the terminal `Connection failed`
status; the manual `reconnect()` resets the counter to 0 and reopens
immediately. -/
theorem reconnect_backoff_policy (st : ConnState) :
    (st.reconnectAttempts < maxReconnectAttempts →
      (scheduleReconnect st).reconnectAttempts = st.reconnectAttempts + 1
      ∧ (scheduleReconnect st).pendingReconnectDelay
          = some (reconnectDelay * min (st.reconnectAttempts + 1) 5))
    ∧ (maxReconnectAttempts ≤ st.reconnectAttempts →
      (scheduleReconnect st).pendingReconnectDelay = st.pendingReconnectDelay
      ∧ (scheduleReconnect st).reconnectAttempts = st.reconnectAttempts
      ∧ (scheduleReconnect st).statusMsg = "Connection failed"
      ∧ (scheduleReconnect st).connected = false)
    ∧ (reconnect st).reconnectAttempts = 0
    ∧ (reconnect st).opening = true := by
  refine ⟨?_, ?_, ?_, ?_⟩
  · intro h
    simp [scheduleReconnect, updateConnectionStatus, Nat.not_le.mpr h]
  · intro h
    simp [scheduleReconnect, updateConnectionStatus, h]
  · rfl
  · rfl

/-- C9 witness at a concrete fresh connection state and an exhausted one. -/
theorem reconnect_backoff_policy_witness :
    (scheduleReconnect ⟨0, false, "", none, false⟩).reconnectAttempts = 1
    ∧ (scheduleReconnect ⟨10, false, "", none, false⟩).statusMsg = "Connection failed" :=
  ⟨((reconnect_backoff_policy ⟨0, false, "", none, false⟩).1 (by decide)).1,
   ((reconnect_backoff_policy ⟨10, false, "", none, false⟩).2.1 (by decide)).2.2.1⟩

/-- C10: for every `diceValues` array handed to `updateDiceToValues` or
`startRolling` (including short arrays and falsy entries), each of the 6 dice
gets `targetValue = diceValues[i]` when that entry is truthy and `1`
otherwise, so no target is ever missing or zero; and `buildResultSymbols`
renders a symbol only for entries in `[1, 6]`, silently skipping the rest. -/
theorem dice_value_defaulting (values : List Int) :
    (diceTargetsOf values).length = 6
    ∧ (∀ i, i < 6 →
        (diceTargetsOf values)[i]?
          = some ((match values[i]? with
                   | some v => if v ≠ 0 then v else 1
                   | none => 1) : Int))
    ∧ (∀ t ∈ diceTargetsOf values, t ≠ 0)
    ∧ (∀ v ∈ buildResultSymbols values, 1 ≤ v ∧ v ≤ 6)
    ∧ (∀ st : EngineState, (startRolling values st).diceTargets = diceTargetsOf values
        ∧ (updateDiceToValues values st).diceTargets = diceTargetsOf values) := by
  refine ⟨by simp [diceTargetsOf], ?_, ?_, ?_, ?_⟩
  · intro i hi
    simp only [diceTargetsOf, List.getElem?_map, List.getElem?_range hi, Option.map_some']
    cases values[i]? <;> simp
  · intro t ht
    simp only [diceTargetsOf, List.mem_map, List.mem_range] at ht
    obtain ⟨i, -, rfl⟩ := ht
    cases values[i]? with
    | none => simp
    | some v =>
      by_cases hv : v = 0 <;> simp [hv]
  · intro v hv
    simp only [buildResultSymbols, List.mem_filterMap, List.mem_range] at hv
    obtain ⟨i, -, hv⟩ := hv
    cases h : values[i]? with
    | none => simp [h] at hv
    | some w =>
      rw [h] at hv
      by_cases hw : 1 ≤ w ∧ w ≤ 6
      · simp only [if_pos hw, Option.some.injEq] at hv
        omega
      · simp [if_neg hw] at hv
  · intro st
    exact ⟨rfl, rfl⟩

/-- C10 witness at `values = [0, 7, 3]`: die 0 defaults to 1. -/
theorem dice_value_defaulting_witness :
    (diceTargetsOf [0, 7, 3])[0]? = some 1 := by
  have h := (dice_value_defaulting [0, 7, 3]).2.1 0 (by norm_num)
  simpa using h

/-- C6: `last.outcome` received while the display state is `countdown` (or
`rolling`) overwrites the stored outcome (`targetValues`, `currentRoundId`)
but leaves the display state unchanged; the display state is changed (to the
result-as-last-outcome view) only when the prior state was `idle`, or
`waiting` with a falsy `scheduledEndAt` (hence with no active round
window). -/
theorem last_outcome_precedence (e : LastOutcomeEvent) (localNow : Int)
    (st : EngineState) :
    (st.gameState = GState.countdown ∨ st.gameState = GState.rolling →
      (onLastOutcome e localNow st).gameState = st.gameState
      ∧ (onLastOutcome e localNow st).targetValues = e.diceValues
      ∧ (onLastOutcome e localNow st).currentRoundId = e.roundId)
    ∧ ((onLastOutcome e localNow st).gameState ≠ st.gameState →
      st.gameState = GState.idle
      ∨ (st.gameState = GState.waiting ∧ ¬ truthy st.scheduledEndAt)) := by
  constructor
  · intro h
    rcases h with h | h <;>
      simp [onLastOutcome, updateServerTimeOffset, updateDiceToValues, h]
  · intro h
    by_cases hc : st.gameState = GState.idle
        ∨ (st.gameState = GState.waiting ∧ truthy st.scheduledEndAt = false)
    · simpa using hc
    · exfalso
      apply h
      simp [onLastOutcome, updateServerTimeOffset, updateDiceToValues, hc]

/-- C6 witness: a `last.outcome` arriving in `countdown` leaves the state in
`countdown`. -/
theorem last_outcome_precedence_witness :
    (onLastOutcome ⟨1, [4, 4, 4, 4, 4, 4], 0, none, 100⟩ 100
        { initState with gameState := GState.countdown }).gameState
      = GState.countdown := by
  have h := (last_outcome_precedence ⟨1, [4, 4, 4, 4, 4, 4], 0, none, 100⟩ 100
      { initState with gameState := GState.countdown }).1 (Or.inl rfl)
  simpa using h.1

/-- C2 counterexample: from the initial state, `round.scheduled{startAt=5000,
endAt=8000, serverNow=1000}` installs a countdown frame targeting `startAt =
5000`; when that frame fires at server time 5000 (remaining = 0), the state
machine does NOT stay put awaiting `round.started` — it auto-transitions to
`Waiting("Waiting for result...")`, because `animateCountdownToTime` treats
every expiry alike. -/
theorem startAt_expiry_transitions_cex :
    (onRoundScheduled ⟨1, 5000, 8000, none, none, 1000⟩ 1000 initState).countdownHandle
      = some ⟨5000, "Round starting in", 4000⟩
    ∧ (fireCountdownFrame 5000
        (onRoundScheduled ⟨1, 5000, 8000, none, none, 1000⟩ 1000 initState)).gameState
      = GState.waiting
    ∧ (fireCountdownFrame 5000
        (onRoundScheduled ⟨1, 5000, 8000, none, none, 1000⟩ 1000 initState)).statusText
      = "Waiting for result..." := by
  refine ⟨rfl, rfl, rfl⟩

/-- C2 (amended): countdown expiry does not distinguish the `startAt` and
`endAt` targets.  When a tick of `animateCountdownToTime` finds `remaining =
0`, the frame handle is cleared and, if the display state is still
`countdown`, the machine enters `Waiting("Waiting for result...")` —
including for countdowns installed by `round.scheduled` toward `startAt`; if
the state is no longer `countdown`, no transition occurs. -/
theorem countdown_expiry_behavior (targetTime : Int) (label : String)
    (totalDuration : Option Int) (localNow : Int) (st : EngineState)
    (h : remainingAt targetTime (getServerTime st localNow) = 0) :
    (st.gameState = GState.countdown →
      (animateCountdownToTime targetTime label totalDuration localNow st).gameState
          = GState.waiting
      ∧ (animateCountdownToTime targetTime label totalDuration localNow st).statusText
          = "Waiting for result..."
      ∧ (animateCountdownToTime targetTime label totalDuration localNow st).countdownHandle
          = none)
    ∧ (st.gameState ≠ GState.countdown →
      (animateCountdownToTime targetTime label totalDuration localNow st).gameState
          = st.gameState
      ∧ (animateCountdownToTime targetTime label totalDuration localNow st).countdownHandle
          = none) := by
  constructor
  · intro hg
    simp only [animateCountdownToTime, h, clearCountdownFrame]
    refine ⟨?_, ?_, ?_⟩
    · simp only [show ¬ (0 : Int) > 0 by omega, if_false, hg, if_pos]
      rw [showWaitingState_gameState]
    · simp only [show ¬ (0 : Int) > 0 by omega, if_false, hg, if_pos]
      rw [showWaitingState_statusText]
    · simp only [show ¬ (0 : Int) > 0 by omega, if_false, hg, if_pos]
      rw [showWaitingState_countdownHandle]
  · intro hg
    simp [animateCountdownToTime, h, clearCountdownFrame, hg]

/-- C2 witness: expiry at server time 5000 of a countdown targeting 5000 in
state `countdown` enters `Waiting`. -/
theorem countdown_expiry_behavior_witness :
    (animateCountdownToTime 5000 "Round starting in" (some 4000) 5000
        { initState with gameState := GState.countdown }).gameState = GState.waiting := by
  have h := (countdown_expiry_behavior 5000 "Round starting in" (some 4000) 5000
      { initState with gameState := GState.countdown } (by decide)).1 rfl
  exact h.1

/-- C1 counterexample: `round.cancelled{serverNow=1000}` on the initial state
sets the horizon `h = 31000` and leaves the display `Waiting`; a
`round.scheduled{startAt=5000, endAt=8000, serverNow=1500}` then delivered on
the channel at server time `1500 < h` (with `startAt = 5000 ≤ h`) does NOT
leave the state at `Waiting`: the listener first sets `cancelledUntil = null`,
so the countdown is installed and the display becomes `Countdown`. -/
theorem scheduled_during_cancellation_restarts_cex :
    (onRoundCancelled ⟨1, 1000⟩ 1000 initState).cancelledUntil = some 31000
    ∧ (onRoundCancelled ⟨1, 1000⟩ 1000 initState).gameState = GState.waiting
    ∧ (onRoundScheduled ⟨1, 5000, 8000, none, none, 1500⟩ 1500
        (onRoundCancelled ⟨1, 1000⟩ 1000 initState)).gameState = GState.countdown
    ∧ (onRoundScheduled ⟨1, 5000, 8000, none, none, 1500⟩ 1500
        (onRoundCancelled ⟨1, 1000⟩ 1000 initState)).countdownHandle
      = some ⟨5000, "Round starting in", 3500⟩
    ∧ (1500 : Int) < 31000 ∧ (5000 : Int) ≤ 31000 := by
  refine ⟨rfl, rfl, rfl, rfl, by decide, by decide⟩

/-- C1 (amended): cancellation suppression holds only where `cancelledUntil`
is still set when the countdown is started.  (a) The channel's
`round.scheduled` listener clears `cancelledUntil` before starting the
countdown, so a channel-delivered schedule is never suppressed and the
resulting state carries no cancellation horizon.  (b) A `SCHEDULED` snapshot
reconciliation performed while `serverTime() < horizon` is suppressed: it
forces `Waiting("Waiting for next round...")` and installs no countdown
frame. -/
theorem cancellation_suppression_amended :
    (∀ (e : RoundScheduledEvent) (localNow : Int) (st : EngineState),
      (onRoundScheduled e localNow st).cancelledUntil = none)
    ∧ (∀ (chatId startAt endAt : Int) (lo : LastOutcome) (serverNow : Int)
        (totalMs remainingMs : Option Int) (localNow : Int) (st : EngineState),
        st.isFetchingSnapshot = false →
        cancelWindowActive st.cancelledUntil serverNow = true →
        (fetchSnapshotAndSync
            (Except.ok (SnapshotResponse.scheduled chatId startAt endAt lo serverNow
              totalMs remainingMs)) localNow st).gameState = GState.waiting
        ∧ (fetchSnapshotAndSync
            (Except.ok (SnapshotResponse.scheduled chatId startAt endAt lo serverNow
              totalMs remainingMs)) localNow st).statusText = "Waiting for next round..."
        ∧ (fetchSnapshotAndSync
            (Except.ok (SnapshotResponse.scheduled chatId startAt endAt lo serverNow
              totalMs remainingMs)) localNow st).countdownHandle = none) := by
  constructor
  · intro e localNow st
    simp only [onRoundScheduled, updateServerTimeOffset]
    rw [startScheduledCountdown_cancelledUntil]
  · intro chatId startAt endAt lo serverNow totalMs remainingMs localNow st hf hc
    have hcc : cancelWindowActive
        (syncCommon lo serverNow localNow
          { st with isFetchingSnapshot := true }).cancelledUntil serverNow = true := by
      rw [syncCommon_cancelledUntil]
      simpa using hc
    simp only [fetchSnapshotAndSync, hf, Bool.false_eq_true, if_false,
      applySnapshotBody, syncScheduled, hcc, if_true]
    refine ⟨?_, ?_, ?_⟩
    · rw [showWaitingState_gameState]
    · rw [showWaitingState_statusText]
    · rw [showWaitingState_countdownHandle]
      simp [cancelCountdown]

/-- C1 witness: concrete instance of the snapshot-suppression conjunct. -/
theorem cancellation_suppression_amended_witness :
    (fetchSnapshotAndSync
        (Except.ok (SnapshotResponse.scheduled 1 5000 8000 ⟨[1, 1, 1, 1, 1, 1], 0, none⟩
          1000 none none)) 1000
        { initState with cancelledUntil := some 31000 }).gameState = GState.waiting :=
  (cancellation_suppression_amended.2 1 5000 8000 ⟨[1, 1, 1, 1, 1, 1], 0, none⟩
    1000 none none 1000 { initState with cancelledUntil := some 31000 }
    rfl (by decide)).1

/-- C5: a `STARTED_OR_REVEALED` snapshot whose `round.diceValues` is the
empty array yields the `Waiting` display state — the same display state a
live `round.cancelled` event produces — and never `Rolling` or `Result`;
outside an active cancellation window the status message also agrees
(`"Waiting for next round..."`). -/
theorem empty_dice_snapshot_is_cancelled (chatId : Int) (rid : String)
    (startAt endAt : Int) (totalMs remainingMs : Option Int) (lo : LastOutcome)
    (serverNow localNow : Int) (st : EngineState)
    (ce : RoundCancelledEvent) (localNow2 : Int) (st2 : EngineState)
    (hf : st.isFetchingSnapshot = false) :
    (fetchSnapshotAndSync (Except.ok (SnapshotResponse.startedOrRevealed chatId rid
        startAt endAt (some []) totalMs remainingMs lo serverNow)) localNow st).gameState
      = GState.waiting
    ∧ (fetchSnapshotAndSync (Except.ok (SnapshotResponse.startedOrRevealed chatId rid
        startAt endAt (some []) totalMs remainingMs lo serverNow)) localNow st).gameState
      = (onRoundCancelled ce localNow2 st2).gameState
    ∧ (fetchSnapshotAndSync (Except.ok (SnapshotResponse.startedOrRevealed chatId rid
        startAt endAt (some []) totalMs remainingMs lo serverNow)) localNow st).gameState
      ≠ GState.rolling
    ∧ (fetchSnapshotAndSync (Except.ok (SnapshotResponse.startedOrRevealed chatId rid
        startAt endAt (some []) totalMs remainingMs lo serverNow)) localNow st).gameState
      ≠ GState.result
    ∧ (cancelWindowActive st.cancelledUntil serverNow = false →
        (fetchSnapshotAndSync (Except.ok (SnapshotResponse.startedOrRevealed chatId rid
            startAt endAt (some []) totalMs remainingMs lo serverNow)) localNow st).statusText
          = "Waiting for next round..."
        ∧ (fetchSnapshotAndSync (Except.ok (SnapshotResponse.startedOrRevealed chatId rid
            startAt endAt (some []) totalMs remainingMs lo serverNow)) localNow st).statusText
          = (onRoundCancelled ce localNow2 st2).statusText) := by
  have hg : (fetchSnapshotAndSync (Except.ok (SnapshotResponse.startedOrRevealed chatId rid
      startAt endAt (some []) totalMs remainingMs lo serverNow)) localNow st).gameState
      = GState.waiting := by
    simp only [fetchSnapshotAndSync, hf, Bool.false_eq_true, if_false,
      applySnapshotBody, syncStartedOrRevealed]
    by_cases hc : cancelWindowActive
        (syncCommon lo serverNow localNow
          { st with isFetchingSnapshot := true }).cancelledUntil serverNow = true
    · simp only [hc, if_true]
      rw [showWaitingState_gameState]
    · simp only [Bool.not_eq_true] at hc
      simp only [hc, Bool.false_eq_true, if_false, List.length_nil,
        eq_self_iff_true, if_true]
      rw [showWaitingState_gameState]
  refine ⟨hg, ?_, ?_, ?_, ?_⟩
  · rw [hg, onRoundCancelled_gameState]
  · rw [hg]; decide
  · rw [hg]; decide
  · intro hnc
    have hcc : cancelWindowActive
        (syncCommon lo serverNow localNow
          { st with isFetchingSnapshot := true }).cancelledUntil serverNow = false := by
      rw [syncCommon_cancelledUntil]
      simpa using hnc
    have hs : (fetchSnapshotAndSync (Except.ok (SnapshotResponse.startedOrRevealed chatId rid
        startAt endAt (some []) totalMs remainingMs lo serverNow)) localNow st).statusText
        = "Waiting for next round..." := by
      simp only [fetchSnapshotAndSync, hf, Bool.false_eq_true, if_false,
        applySnapshotBody, syncStartedOrRevealed, hcc, List.length_nil,
        eq_self_iff_true, if_true]
      rw [showWaitingState_statusText]
    exact ⟨hs, by rw [hs, onRoundCancelled_statusText]⟩

/-- C5 witness at a concrete snapshot and state. -/
theorem empty_dice_snapshot_is_cancelled_witness :
    (fetchSnapshotAndSync (Except.ok (SnapshotResponse.startedOrRevealed 1 "r9"
        500 8000 (some []) none none ⟨[2, 3, 4, 5, 6, 1], 500, some "r1"⟩ 1000))
        1000 initState).gameState = GState.waiting :=
  (empty_dice_snapshot_is_cancelled 1 "r9" 500 8000 none none
    ⟨[2, 3, 4, 5, 6, 1], 500, some "r1"⟩ 1000 1000 initState ⟨1, 1000⟩ 1000 initState rfl).1

set_option maxHeartbeats 8000000

/-- C4: applying the identical `SCHEDULED` snapshot twice at the same server
time yields exactly the same engine state as applying it once — in
particular the same display state and the same countdown frame (target
unchanged) — and the countdown frame handle lives in the single
`countdownHandle` slot, which `queueCountdownFrame` clears before
re-installing, so at most one countdown timer/frame handle is ever active. -/
theorem scheduled_snapshot_idempotent (chatId startAt endAt : Int) (lo : LastOutcome)
    (serverNow : Int) (totalMs remainingMs : Option Int) (localNow : Int)
    (st : EngineState) (hf : st.isFetchingSnapshot = false) :
    fetchSnapshotAndSync (Except.ok (SnapshotResponse.scheduled chatId startAt endAt lo
        serverNow totalMs remainingMs)) localNow
      (fetchSnapshotAndSync (Except.ok (SnapshotResponse.scheduled chatId startAt endAt lo
        serverNow totalMs remainingMs)) localNow st)
    = fetchSnapshotAndSync (Except.ok (SnapshotResponse.scheduled chatId startAt endAt lo
        serverNow totalMs remainingMs)) localNow st
    ∧ (fetchSnapshotAndSync (Except.ok (SnapshotResponse.scheduled chatId startAt endAt lo
        serverNow totalMs remainingMs)) localNow
      (fetchSnapshotAndSync (Except.ok (SnapshotResponse.scheduled chatId startAt endAt lo
        serverNow totalMs remainingMs)) localNow st)).countdownHandle
    = (fetchSnapshotAndSync (Except.ok (SnapshotResponse.scheduled chatId startAt endAt lo
        serverNow totalMs remainingMs)) localNow st).countdownHandle
    ∧ countdownHandleCount (fetchSnapshotAndSync (Except.ok (SnapshotResponse.scheduled
        chatId startAt endAt lo serverNow totalMs remainingMs)) localNow st) ≤ 1 := by
  have hmain : fetchSnapshotAndSync (Except.ok (SnapshotResponse.scheduled chatId startAt
        endAt lo serverNow totalMs remainingMs)) localNow
      (fetchSnapshotAndSync (Except.ok (SnapshotResponse.scheduled chatId startAt endAt lo
        serverNow totalMs remainingMs)) localNow st)
      = fetchSnapshotAndSync (Except.ok (SnapshotResponse.scheduled chatId startAt endAt lo
        serverNow totalMs remainingMs)) localNow st := by
    simp only [fetchSnapshotAndSync, hf, Bool.false_eq_true, if_false]
    simp only [applySnapshotBody, syncScheduled, syncCommon, updateServerTimeOffset,
      updateDiceToValues, getServerTime, int_add_sub_cancel_mid]
    by_cases hA : cancelWindowActive st.cancelledUntil serverNow = true
    · simp only [hA, if_true, showWaitingState, getServerTime, cancelCountdown,
        int_add_sub_cancel_mid]
      by_cases hW : activeRoundEnd st.scheduledEndAt serverNow = true
      · simp [hW, hA]
      · simp only [Bool.not_eq_true] at hW
        simp [hW, hA]
    · simp only [Bool.not_eq_true] at hA
      simp only [hA, Bool.false_eq_true, if_false]
      by_cases hE : serverNow ≥ endAt
      · simp only [if_pos hE, showLastOutcome]
        simp [hA, hE]
      · simp only [if_neg hE]
        by_cases hS : serverNow ≥ startAt
        · simp only [if_pos hS, startRoundCountdown, truthy_some, getServerTime,
            clearCountdownFrame, int_add_sub_cancel_mid, Option.getD_some]
          by_cases hEz : endAt = 0
          · simp [hEz, hA, hE, hS]
          · have hTz : (endAt != 0) = true := by simp [hEz]
            have hrem : (0 : Int) ⊔ (endAt - serverNow) = endAt - serverNow := by omega
            have hpos : endAt - serverNow > 0 := by omega
            simp [hTz, hA, hE, hS, hrem, hpos, startRoundCountdown, truthy_some,
              animateCountdownToTime, getServerTime, remainingAt, durationOf, secondsLeftOf,
              int_add_sub_cancel_mid, int_add_sub_cancel_fst, Option.getD_some,
              clearCountdownFrame]
        · simp only [if_neg hS, startScheduledCountdown, truthy_some, getServerTime,
            int_add_sub_cancel_mid, Option.getD_some]
          by_cases hSz : startAt = 0
          · simp [hSz, hA, hE, hS]
          · have hTz : (startAt != 0) = true := by simp [hSz]
            by_cases hR : (0 : Int) ⊔ remainingMs.getD (0 ⊔ (startAt - serverNow)) > 0
            · simp [hTz, hA, hE, hS, hR, startScheduledCountdown, truthy_some,
                animateCountdownToTime, getServerTime, remainingAt, durationOf,
                secondsLeftOf, int_add_sub_cancel_mid, int_add_sub_cancel_fst,
                Option.getD_some, clearCountdownFrame, int_max_zero_idem]
            · have hlt : serverNow < endAt := by omega
              by_cases hW2 : endAt = 0 <;>
                simp [hTz, hA, hE, hS, hR, hW2, hlt, startScheduledCountdown, truthy_some,
                  animateCountdownToTime, getServerTime, remainingAt, durationOf,
                  secondsLeftOf, int_add_sub_cancel_mid, int_add_sub_cancel_fst,
                  Option.getD_some, clearCountdownFrame, int_max_zero_idem,
                  showWaitingState, activeRoundEnd]
  refine ⟨hmain, by rw [hmain], ?_⟩
  unfold countdownHandleCount
  split <;> omega

set_option maxHeartbeats 200000

/-- C4 witness: applying a concrete future `SCHEDULED` snapshot twice to the
initial state equals applying it once. -/
theorem scheduled_snapshot_idempotent_witness :
    fetchSnapshotAndSync (Except.ok (SnapshotResponse.scheduled 1 5000 8000
        ⟨[2, 3, 4, 5, 6, 1], 500, some "r1"⟩ 1000 none none)) 1000
      (fetchSnapshotAndSync (Except.ok (SnapshotResponse.scheduled 1 5000 8000
        ⟨[2, 3, 4, 5, 6, 1], 500, some "r1"⟩ 1000 none none)) 1000 initState)
    = fetchSnapshotAndSync (Except.ok (SnapshotResponse.scheduled 1 5000 8000
        ⟨[2, 3, 4, 5, 6, 1], 500, some "r1"⟩ 1000 none none)) 1000 initState :=
  (scheduled_snapshot_idempotent 1 5000 8000 ⟨[2, 3, 4, 5, 6, 1], 500, some "r1"⟩
    1000 none none 1000 initState rfl).1

end DiceFrontend
